import Mathlib

/-!
Shallow embedding of the Water ATM session controller from
`water_dispense_with_rfid.py` and `mqtt_dummy_water_dispence.py`.

The mutable globals `authenticated`, `balance`, `current_card_uid` become an
explicit `SessionState` record threaded through the handlers.  Side effects
(publishes and the log lines the handlers emit) become an explicit `Event`
list returned alongside the new state.  The environment during a metering run
(the card reads returned by `reader.read()` and the per-tick pulse samples
from `random.randint`) is passed in as a list of `Tick` records, one per loop
iteration that the 5-second wall-clock window admits; a read that raises is
`none`.  Balances and dispensed volumes are modelled as exact rationals, with
Python's 2-decimal `round` (round-half-to-even) made explicit.
-/

/-- Card identifiers as returned by `reader.read()`; `none` models the absent
value `None` held in `current_card_uid`. -/
abbrev UID := Nat

/-- The three mutable globals of `water_dispense_with_rfid.py`:
`authenticated`, `balance`, `current_card_uid`. -/
structure SessionState where
  authenticated : Bool
  balance : ℚ
  currentUID : Option UID
deriving DecidableEq, Repr

/-- Observable side effects of the handlers: the publishes and the log lines
relevant to the claims. -/
inductive Event where
  /-- `client.publish(TOPIC_PUB_RESULT, {dispensed, updated_balance})` -/
  | publishResult (dispensed : ℚ) (updatedBalance : ℚ)
  /-- `logger.warning("Retained message received. Ignoring.")` -/
  | logRetainedIgnored
  /-- `logger.warning("Authentication failed. User does not exist.")` -/
  | logAuthFailed
  /-- `logger.info("Server confirmed balance update.")` -/
  | logConfirmOk
  /-- `logger.warning("Server failed to confirm balance update.")` -/
  | logConfirmFail
  /-- `logger.error("Error while processing incoming message: ...")` -/
  | logMsgError
  /-- `logger.error("MQTT disconnected — skipping result publish")` -/
  | logSkipPublish
deriving DecidableEq, Repr

/-- The two subscribed topics (`TOPIC_SUB_AUTH`, `TOPIC_SUB_CONFIRM`); `other`
covers any further topic a message could arrive on. -/
inductive Topic where
  | auth
  | confirm
  | other
deriving DecidableEq, Repr

/-- An inbound payload after `msg.payload.decode()` / `json.loads`:
`malformed` models a payload on which decoding, `json.loads`, or the
subsequent field access raises (caught by the handler's `except`); `record`
models a successfully parsed JSON object, keeping the three fields the
handler reads with `data.get`, each `Option` because `.get` tolerates
absence. -/
inductive Payload where
  | malformed
  | record (user_exists : Option Bool) (balance_field : Option ℚ)
      (updated_field : Option Bool)
deriving DecidableEq, Repr

/-- An inbound MQTT message as seen by `on_message`: topic, parsed payload,
and the retain flag `msg.retain`. -/
structure Msg where
  topic : Topic
  payload : Payload
  retain : Bool
deriving DecidableEq, Repr

/-- One iteration of the metering loop's environment: the outcome of
`reader.read()` (`none` when the read raises, i.e. card removed) and the
pulse sample `random.randint(1, 5)` for that tick. -/
structure Tick where
  read : Option UID
  pulses : Nat
deriving DecidableEq, Repr

/-- Floor of a rational, computed as floor division of numerator by
denominator (the denominator is positive). -/
def ratFloor (q : ℚ) : ℤ :=
  q.num.fdiv q.den

/-- Round-half-to-even to an integer, as Python 3's builtin `round` does on
the exact value. -/
def roundHalfEven (q : ℚ) : ℤ :=
  if q - (ratFloor q : ℚ) < 1 / 2 then ratFloor q
  else if 1 / 2 < q - (ratFloor q : ℚ) then ratFloor q + 1
  else if ratFloor q % 2 = 0 then ratFloor q else ratFloor q + 1

/-- Python's `round(q, 2)`: round to 2 decimal places, half to even. -/
def pyRound2 (q : ℚ) : ℚ :=
  (roundHalfEven (q * 100) : ℚ) / 100

/-- The `while` loop of `start_dispensing` (lines 123-135): walk the ticks in
order; on a failed read (`except` branch, "Card removed") or a read differing
from `initial_uid` ("Card changed") break immediately, otherwise add the
tick's pulses to the running total.  Returns `total_pulses` at loop exit. -/
def runMetering (initialUid : Option UID) : List Tick → Nat
  | [] => 0
  | t :: rest =>
    match t.read with
    | none => 0
    | some u =>
      if some u = initialUid then t.pulses + runMetering initialUid rest
      else 0

/-- Lines 137-138 of `start_dispensing`: `dispensed_ml = total_pulses * 2`,
`dispensed_liters = round(dispensed_ml / 1000, 2)`. -/
def dispensedOf (totalPulses : Nat) : ℚ :=
  pyRound2 ((totalPulses * 2 : ℚ) / 1000)

/-- `start_dispensing(client)` (lines 114-153): run the metering loop bound
to the current `current_card_uid`, convert pulses to liters, debit the
balance and clamp at zero, then publish the result message if the client is
connected, else log and skip the publish. -/
def start_dispensing (st : SessionState) (ticks : List Tick)
    (connected : Bool) : SessionState × List Event :=
  let totalPulses := runMetering st.currentUID ticks
  let dispensedLiters := dispensedOf totalPulses
  let newBalance := max (st.balance - dispensedLiters) 0
  let events :=
    if connected then
      [Event.publishResult dispensedLiters (pyRound2 newBalance)]
    else
      [Event.logSkipPublish]
  ({ st with balance := newBalance }, events)

/-- `on_message(client, userdata, msg)` (lines 63-94): drop retained
messages; on a payload that fails to parse, log the error and leave state
unchanged; on the auth topic read `exists` and `balance` with defaults, and
if the user exists set `authenticated`, dispense, then clear
`authenticated`; on the confirm topic just log.  `ticks` and `connected`
supply the environment consumed if a dispensing run starts. -/
def on_message (st : SessionState) (msg : Msg) (ticks : List Tick)
    (connected : Bool) : SessionState × List Event :=
  if msg.retain then (st, [Event.logRetainedIgnored])
  else
    match msg.payload with
    | Payload.malformed => (st, [Event.logMsgError])
    | Payload.record user_exists balance_field updated_field =>
      match msg.topic with
      | Topic.auth =>
        let st1 := { st with balance := balance_field.getD 0 }
        if user_exists.getD false then
          let st2 := { st1 with authenticated := true }
          let (st3, evs) := start_dispensing st2 ticks connected
          ({ st3 with authenticated := false }, evs)
        else
          (st1, [Event.logAuthFailed])
      | Topic.confirm =>
        if updated_field.getD false then (st, [Event.logConfirmOk])
        else (st, [Event.logConfirmFail])
      | Topic.other => (st, [])

/-- `mqtt.MQTT_ERR_SUCCESS` -/
def MQTT_ERR_SUCCESS : Nat := 0

/-- Outcome of one invocation of an `on_disconnect` handler, with the
reconnect loop cut off after the supplied attempt outcomes: whether the
reconnect loop was entered at all, how many `client.reconnect()` calls were
made, the total seconds spent in `time.sleep(5)` calls, and whether a
reconnect succeeded. -/
structure DisconnectBehavior where
  enteredLoop : Bool
  attempts : Nat
  sleepSeconds : Nat
  reconnected : Bool
deriving DecidableEq, Repr

/-- The `while True` reconnect loop shared by both `on_disconnect` handlers:
each element of `outcomes` is the result of one `client.reconnect()` call
(`true` = no exception).  Success breaks; failure sleeps 5 seconds and
retries.  An exhausted list means the loop is still running (never
reconnected within the observed attempts). -/
def reconnectLoop : List Bool → Nat × Nat × Bool
  | [] => (0, 0, false)
  | o :: rest =>
    if o then (1, 0, true)
    else
      let r := reconnectLoop rest
      (r.1 + 1, r.2.1 + 5, r.2.2)

/-- `on_disconnect` of `water_dispense_with_rfid.py` (lines 99-109): enters
the reconnect loop unconditionally, ignoring the reason code. -/
def on_disconnect_rfid (rc : Nat) (outcomes : List Bool) :
    DisconnectBehavior :=
  let _ := rc
  let r := reconnectLoop outcomes
  ⟨true, r.1, r.2.1, r.2.2⟩

/-- `on_disconnect` of `mqtt_dummy_water_dispence.py` (lines 97-111): returns
immediately on a clean disconnect (`reason_code == mqtt.MQTT_ERR_SUCCESS`),
otherwise enters the same reconnect loop. -/
def on_disconnect_dummy (reason_code : Nat) (outcomes : List Bool) :
    DisconnectBehavior :=
  if reason_code = MQTT_ERR_SUCCESS then ⟨false, 0, 0, false⟩
  else
    let r := reconnectLoop outcomes
    ⟨true, r.1, r.2.1, r.2.2⟩

/-- One iteration of `main`'s polling loop (lines 178-195), as a function of
the tracked `current_card_uid`, the outcome of `reader.read()` (`none` when
it raises) and the connection status.  Returns the new `current_card_uid`
and whether a UID authorization request was published. -/
def main_tick (cur : Option UID) (readResult : Option UID)
    (connected : Bool) : Option UID × Bool :=
  match readResult with
  | none => (none, false)
  | some u =>
    if some u = cur then (cur, false)
    else (some u, connected)

/-- A tick at which the metering loop breaks: the read raised (card removed)
or returned an identifier different from the one the run is bound to (card
changed). -/
def badTick (initialUid : Option UID) (t : Tick) : Bool :=
  match t.read with
  | none => true
  | some u => !(some u == initialUid)

example : runMetering (some 1) [⟨some 1, 3⟩, ⟨none, 4⟩, ⟨some 1, 5⟩] = 3 := by
  decide

example : runMetering (some 1) [⟨some 1, 3⟩, ⟨some 2, 4⟩, ⟨some 1, 5⟩] = 3 := by
  decide

example : runMetering (some 1) [⟨some 1, 3⟩, ⟨some 1, 4⟩] = 7 := by decide

/-- `ratFloor` agrees with Mathlib's floor on `ℚ`. -/
lemma ratFloor_eq_floor (q : ℚ) : ratFloor q = ⌊q⌋ := by
  rw [Rat.floor_def, ratFloor, Int.fdiv_eq_ediv _ (Int.natCast_nonneg q.den)]

lemma ratFloor_nonneg {q : ℚ} (hq : 0 ≤ q) : 0 ≤ ratFloor q :=
  Int.fdiv_nonneg (Rat.num_nonneg.mpr hq) (Int.natCast_nonneg q.den)

lemma roundHalfEven_nonneg {q : ℚ} (hq : 0 ≤ q) : 0 ≤ roundHalfEven q := by
  have h := ratFloor_nonneg hq
  unfold roundHalfEven
  split_ifs <;> omega

lemma pyRound2_nonneg {q : ℚ} (hq : 0 ≤ q) : 0 ≤ pyRound2 q := by
  have h : (0 : ℚ) ≤ (roundHalfEven (q * 100) : ℚ) := by
    exact_mod_cast roundHalfEven_nonneg (by positivity)
  exact div_nonneg h (by norm_num)

lemma dispensedOf_nonneg (p : ℕ) : 0 ≤ dispensedOf p :=
  pyRound2_nonneg (by positivity)

/-- If every tick of `good` keeps the run alive and `bad` breaks it, the
metering loop accumulates exactly the pulses of `good`, whatever follows the
breaking tick. -/
lemma runMetering_append_bad (init : Option UID) (good : List Tick)
    (bad : Tick) (rest : List Tick)
    (hgood : ∀ t ∈ good, badTick init t = false)
    (hbad : badTick init bad = true) :
    runMetering init (good ++ bad :: rest) = (good.map Tick.pulses).sum := by
  induction good with
  | nil =>
    cases hr : bad.read with
    | none => simp [runMetering, hr]
    | some u =>
      have hu : ¬(some u = init) := by
        simpa [badTick, hr] using hbad
      simp [runMetering, hr, hu]
  | cons t ts ih =>
    have h0 : badTick init t = false := hgood t (List.mem_cons_self t ts)
    cases hr : t.read with
    | none => simp [badTick, hr] at h0
    | some u =>
      have hu : some u = init := by
        simpa [badTick, hr] using h0
      have ih2 := ih (fun x hx => hgood x (List.mem_cons_of_mem t hx))
      subst hu
      simp [runMetering, hr, ih2]

/-- First success after `k` failed reconnect attempts: `k + 1` attempts,
`5 * k` seconds slept, reconnected. -/
lemma reconnectLoop_first_success (k : ℕ) (rest : List Bool) :
    reconnectLoop (List.replicate k false ++ true :: rest) = (k + 1, 5 * k, true) := by
  induction k with
  | zero => simp [reconnectLoop]
  | succ n ih =>
    simp [List.replicate_succ, reconnectLoop, ih, Prod.ext_iff]
    ring

/-- `n` failed attempts in a row: the loop has made `n` attempts, slept
`5 * n` seconds, and is still not reconnected (still looping). -/
lemma reconnectLoop_all_fail (n : ℕ) :
    reconnectLoop (List.replicate n false) = (n, 5 * n, false) := by
  induction n with
  | zero => simp [reconnectLoop]
  | succ m ih =>
    simp [List.replicate_succ, reconnectLoop, ih, Prod.ext_iff]
    ring

/-- Claim C1 counterexample: the claim says a denial (`exists=false`) never
mutates `balanceLiters`, but `on_message` assigns `balance` from the payload
before checking `exists`; on state with balance 5, a denial carrying
`balance=7` leaves balance 7. -/
theorem C1_counterexample :
    (on_message ⟨false, 5, none⟩
        ⟨Topic.auth, Payload.record (some false) (some 7) none, false⟩
        [] true).1.balance = 7 ∧
    (7 : ℚ) ≠ 5 := by
  decide

/-- Claim C1 (amended): a denial response never starts a metering run, never
publishes, and leaves `authenticated` and `currentUID` unchanged, but the
handler overwrites `balance` with the payload's balance field (default 0)
before checking `exists`. -/
theorem C1_amended (st : SessionState) (ue : Option Bool) (bf : Option ℚ)
    (uf : Option Bool) (ticks : List Tick) (connected : Bool)
    (hdenied : ue.getD false = false) :
    on_message st ⟨Topic.auth, Payload.record ue bf uf, false⟩ ticks connected
      = ({ st with balance := bf.getD 0 }, [Event.logAuthFailed]) := by
  simp [on_message, hdenied]

/-- Claim C1 (amended) witness at a concrete denial message. -/
theorem C1_amended_witness :
    on_message ⟨false, 5, none⟩
        ⟨Topic.auth, Payload.record (some false) (some 7) none, false⟩ [] true
      = (⟨false, 7, none⟩, [Event.logAuthFailed]) :=
  C1_amended ⟨false, 5, none⟩ (some false) (some 7) none [] true (by decide)

/-- Claim C2: for every starting balance `b ≥ 0`, the balance after a
metering run equals `max (b - d) 0` for the dispensed volume `d`, and is
never negative. -/
theorem C2_balance_clamped (st : SessionState) (ticks : List Tick)
    (connected : Bool) (hb : 0 ≤ st.balance) :
    (start_dispensing st ticks connected).1.balance
      = max (st.balance - dispensedOf (runMetering st.currentUID ticks)) 0 ∧
    0 ≤ (start_dispensing st ticks connected).1.balance :=
  ⟨rfl, le_max_right _ _⟩

/-- Claim C2 witness at a concrete state and empty run. -/
theorem C2_witness :
    (start_dispensing ⟨true, 10, some 1⟩ [] true).1.balance
      = max ((10 : ℚ) - dispensedOf (runMetering (some 1) [])) 0 ∧
    0 ≤ (start_dispensing ⟨true, 10, some 1⟩ [] true).1.balance :=
  C2_balance_clamped ⟨true, 10, some 1⟩ [] true (by decide)

/-- Claim C3: the dispensed volume reported in the published result equals
`round(p * 2 / 1000, 2)` for the accumulated pulse count `p`, and is never
negative. -/
theorem C3_dispensed_formula (st : SessionState) (ticks : List Tick) :
    0 ≤ dispensedOf (runMetering st.currentUID ticks) ∧
    dispensedOf (runMetering st.currentUID ticks)
      = pyRound2 ((runMetering st.currentUID ticks * 2 : ℚ) / 1000) ∧
    (start_dispensing st ticks true).2
      = [Event.publishResult (dispensedOf (runMetering st.currentUID ticks))
          (pyRound2
            (max (st.balance - dispensedOf (runMetering st.currentUID ticks))
              0))] :=
  ⟨dispensedOf_nonneg _, rfl, rfl⟩

/-- Claim C4: when the first breaking tick of a metering run is a card
change or a failed read, the loop stops there: it accumulates exactly the
pulses of the good prefix, and the whole dispensing result is independent of
whatever would have followed the breaking tick (the function is total, so no
exception escapes). -/
theorem C4_early_termination (st : SessionState) (good : List Tick)
    (bad : Tick) (rest rest2 : List Tick) (connected : Bool)
    (hgood : ∀ t ∈ good, badTick st.currentUID t = false)
    (hbad : badTick st.currentUID bad = true) :
    runMetering st.currentUID (good ++ bad :: rest)
      = (good.map Tick.pulses).sum ∧
    start_dispensing st (good ++ bad :: rest) connected
      = start_dispensing st (good ++ bad :: rest2) connected := by
  have h1 := runMetering_append_bad st.currentUID good bad rest hgood hbad
  have h2 := runMetering_append_bad st.currentUID good bad rest2 hgood hbad
  refine ⟨h1, ?_⟩
  simp only [start_dispensing, h1, h2]

/-- Claim C4 witness: the card disappears at the second tick of three; only
the first tick's 3 pulses count and the third tick is irrelevant. -/
theorem C4_witness :
    runMetering (some 1) [⟨some 1, 3⟩, ⟨none, 4⟩, ⟨some 1, 5⟩] = 3 ∧
    start_dispensing ⟨true, 5, some 1⟩ [⟨some 1, 3⟩, ⟨none, 4⟩, ⟨some 1, 5⟩]
        true
      = start_dispensing ⟨true, 5, some 1⟩ [⟨some 1, 3⟩, ⟨none, 4⟩] true :=
  C4_early_termination ⟨true, 5, some 1⟩ [⟨some 1, 3⟩] ⟨none, 4⟩
    [⟨some 1, 5⟩] [] true (by decide) (by decide)

/-- Claim C5: after a dispensing cycle triggered by a successful
authorization completes (full run or early cancellation, any tick trace),
`authenticated` is false when the handler returns. -/
theorem C5_auth_cleared (st : SessionState) (ue : Option Bool) (bf : Option ℚ)
    (uf : Option Bool) (ticks : List Tick) (connected : Bool)
    (hex : ue.getD false = true) :
    (on_message st ⟨Topic.auth, Payload.record ue bf uf, false⟩ ticks
        connected).1.authenticated = false := by
  simp [on_message, hex, start_dispensing]

/-- Claim C5 witness at a concrete successful authorization. -/
theorem C5_witness :
    (on_message ⟨false, 0, some 7⟩
        ⟨Topic.auth, Payload.record (some true) (some 10) none, false⟩
        [] true).1.authenticated = false :=
  C5_auth_cleared ⟨false, 0, some 7⟩ (some true) (some 10) none [] true
    (by decide)

/-- Claim C6 counterexample: the claim says a message missing an expected
field leaves state unchanged, but a well-formed auth payload with no fields
drives `balance` to the default 0, changing it from 3. -/
theorem C6_counterexample :
    (on_message ⟨false, 3, some 11⟩
        ⟨Topic.auth, Payload.record none none none, false⟩
        [] true).1.balance = 0 ∧
    (0 : ℚ) ≠ 3 := by
  decide

/-- Claim C6 (amended): a payload on which parsing raises is dropped with a
logged error and the state is unchanged (the handler is total, so the next
message is processed); but a well-formed payload missing expected fields is
processed with defaults (`exists → false`, `balance → 0`), which on the auth
topic overwrites `balance` with 0. -/
theorem C6_amended (st : SessionState) (topic : Topic) (ticks : List Tick)
    (connected : Bool) :
    on_message st ⟨topic, Payload.malformed, false⟩ ticks connected
      = (st, [Event.logMsgError]) ∧
    on_message st ⟨Topic.auth, Payload.record none none none, false⟩ ticks
        connected
      = ({ st with balance := 0 }, [Event.logAuthFailed]) :=
  ⟨rfl, rfl⟩

/-- Claim C7: a retained message on any topic is discarded: the state is
returned unchanged and the only effect is the warning log, so nothing is
published and no dispensing occurs. -/
theorem C7_retained_no_reaction (st : SessionState) (msg : Msg)
    (ticks : List Tick) (connected : Bool) (hr : msg.retain = true) :
    on_message st msg ticks connected = (st, [Event.logRetainedIgnored]) := by
  simp [on_message, hr]

/-- Claim C7 witness: a retained successful authorization is ignored. -/
theorem C7_witness :
    on_message ⟨false, 2, none⟩
        ⟨Topic.auth, Payload.record (some true) (some 50) none, true⟩ [] true
      = (⟨false, 2, none⟩, [Event.logRetainedIgnored]) :=
  C7_retained_no_reaction ⟨false, 2, none⟩
    ⟨Topic.auth, Payload.record (some true) (some 50) none, true⟩ [] true rfl

/-- Claim C8 counterexample: the claim says a clean disconnect does not
trigger the reconnect loop, but the `on_disconnect` of
`water_dispense_with_rfid.py` ignores the reason code: invoked with
`MQTT_ERR_SUCCESS` it still enters the loop and attempts a reconnect. -/
theorem C8_counterexample :
    (on_disconnect_rfid MQTT_ERR_SUCCESS [true]).enteredLoop = true ∧
    (on_disconnect_rfid MQTT_ERR_SUCCESS [true]).attempts = 1 := by
  decide

/-- Claim C8 (amended): both handlers retry reconnecting forever with a
fixed 5-second sleep after each failure — after `k` failures the successful
attempt is number `k + 1` with `5 * k` seconds slept, and after `n` straight
failures the loop is still going; the dummy client's handler skips the loop
on a clean reason code, but the rfid client's handler enters it regardless
of the reason code. -/
theorem C8_amended (rc k n : ℕ) (rest outcomes : List Bool)
    (hrc : rc ≠ MQTT_ERR_SUCCESS) :
    on_disconnect_dummy MQTT_ERR_SUCCESS outcomes = ⟨false, 0, 0, false⟩ ∧
    on_disconnect_dummy rc (List.replicate k false ++ true :: rest)
      = ⟨true, k + 1, 5 * k, true⟩ ∧
    on_disconnect_rfid rc (List.replicate k false ++ true :: rest)
      = ⟨true, k + 1, 5 * k, true⟩ ∧
    on_disconnect_rfid MQTT_ERR_SUCCESS (List.replicate n false)
      = ⟨true, n, 5 * n, false⟩ := by
  refine ⟨?_, ?_, ?_, ?_⟩
  · simp [on_disconnect_dummy]
  · simp [on_disconnect_dummy, hrc, reconnectLoop_first_success]
  · simp [on_disconnect_rfid, reconnectLoop_first_success]
  · simp [on_disconnect_rfid, reconnectLoop_all_fail]

/-- Claim C8 (amended) witness: reason code 7, success on the third attempt
after two failures, and three straight failures. -/
theorem C8_amended_witness :
    on_disconnect_dummy MQTT_ERR_SUCCESS [true] = ⟨false, 0, 0, false⟩ ∧
    on_disconnect_dummy 7 (List.replicate 2 false ++ true :: [])
      = ⟨true, 2 + 1, 5 * 2, true⟩ ∧
    on_disconnect_rfid 7 (List.replicate 2 false ++ true :: [])
      = ⟨true, 2 + 1, 5 * 2, true⟩ ∧
    on_disconnect_rfid MQTT_ERR_SUCCESS (List.replicate 3 false)
      = ⟨true, 3, 5 * 3, false⟩ :=
  C8_amended 7 2 3 [] [true] (by decide)

/-- Claim C9: in the main polling loop, re-reading the same identifier as
the tracked one publishes nothing; a failed read resets the tracked
identifier to the absent value; and after such a reset any read identifier
(even the same card) counts as a fresh detection and publishes a new
authorization request. -/
theorem C9_uid_change_detection (cur : Option UID) (u v : UID)
    (connected : Bool) :
    main_tick (some u) (some u) connected = (some u, false) ∧
    main_tick cur none connected = (none, false) ∧
    main_tick none (some v) true = (some v, true) := by
  refine ⟨by simp [main_tick], rfl, by simp [main_tick]⟩

/-- Claim C10: with the client disconnected at the end of a metering run,
the balance is still debited and clamped at zero, but no result message is
published — the only effect is the skip log. -/
theorem C10_debit_without_publish (st : SessionState) (ticks : List Tick) :
    (start_dispensing st ticks false).1.balance
      = max (st.balance - dispensedOf (runMetering st.currentUID ticks)) 0 ∧
    (start_dispensing st ticks false).2 = [Event.logSkipPublish] :=
  ⟨rfl, rfl⟩
